import Mathlib

/-!
Verification of the SKIL Python client SDK (`skil/services.py`,
`skil/resources/common.py`) against its natural-language specification.

The Python code is shallowly embedded: numpy 2-D arrays become
`List (List Int)` (row-major rows), the `skil_client.INDArray` wire
descriptor becomes a Lean structure, remote API calls and printer output
become explicit event traces, the local filesystem becomes a list of
paths, and Python exceptions become `Except`/`Option` results. The
unbounded poll loop in `Service.start` is embedded with explicit fuel: a
`none` result means the fuel ran out, and divergence is the statement
that every fuel amount yields `none`.
-/

/-- The `skil_client.INDArray` wire descriptor: ordering metadata, shape,
and row-major flattened data (services.py lines 82-86). -/
structure INDArray where
  ordering : String
  shape : List Nat
  data : List Int
  deriving DecidableEq

/-- Shape of a rectangular 2-D numpy array represented as a list of rows:
`np_array.shape` is (number of rows, row length). An empty array reports
row length 0. -/
def npShape2 (a : List (List Int)) : List Nat :=
  [a.length, (a.headD []).length]

/-- Embedding of `Service._indarray` (services.py lines 72-86): convert a
2-D numpy array to an `INDArray` with ordering `c`, its shape, and its
row-major flattened data (`np_array.reshape(-1).tolist()`). -/
def Service.indarray (a : List (List Int)) : INDArray :=
  ⟨"c", npShape2 a, a.flatten⟩

/-- Split a flat list into `n` consecutive rows of `m` elements each:
the row-major (ordering `c`) 2-D reshape. -/
def chunkRows (n m : Nat) (d : List Int) : List (List Int) :=
  match n with
  | 0 => []
  | k + 1 => d.take m :: chunkRows k m (d.drop m)

/-- Embedding of `np.asarray(data).reshape(shape)` for a 2-D shape:
`none` models the exception numpy raises when the element count does not
match the shape, or when the shape is not 2-D. -/
def reshapeNd (shape : List Nat) (d : List Int) : Option (List (List Int)) :=
  match shape with
  | [n, m] => if d.length = n * m then some (chunkRows n m d) else none
  | _ => none

/-- Reconstruction of one output array from a response descriptor, as
`Service.predict` does per output (services.py line 114):
`np.asarray(o.data).reshape(o.shape)`. -/
def reconstructOutput (o : INDArray) : Option (List (List Int)) :=
  reshapeNd o.shape o.data

theorem join_length_of_rect (a : List (List Int)) (m : Nat)
    (h : ∀ r ∈ a, r.length = m) : a.flatten.length = a.length * m := by
  induction a with
  | nil => simp
  | cons r rest ih =>
    have hr : r.length = m := h r (by simp)
    have hrest : ∀ r ∈ rest, r.length = m := fun r hmem => h r (by simp [hmem])
    simp [List.flatten, ih hrest, hr, Nat.succ_mul, Nat.add_comm]

theorem chunkRows_join (a : List (List Int)) (m : Nat)
    (h : ∀ r ∈ a, r.length = m) : chunkRows a.length m a.flatten = a := by
  induction a with
  | nil => rfl
  | cons r rest ih =>
    have hr : r.length = m := h r (by simp)
    have hrest : ∀ r ∈ rest, r.length = m := fun r hmem => h r (by simp [hmem])
    show (r ++ rest.flatten).take m :: chunkRows rest.length m ((r ++ rest.flatten).drop m)
        = r :: rest
    rw [← hr, List.take_left, List.drop_left, hr, ih hrest]

/-- C1: marshaling a rectangular numeric array of shape (N, M) with
`Service._indarray` produces a descriptor with ordering `c`, and
reconstructing an array from a response descriptor carrying the same
shape and flattened data (as `Service.predict` does via reshape) yields
the original array, shape and values preserved. -/
theorem indarray_roundtrip (a : List (List Int)) (m : Nat)
    (h : ∀ r ∈ a, r.length = m) :
    (Service.indarray a).ordering = "c"
    ∧ reconstructOutput (Service.indarray a) = some a := by
  refine ⟨rfl, ?_⟩
  cases a with
  | nil => rfl
  | cons r rest =>
    have hr : r.length = m := h r (by simp)
    show reshapeNd [(r :: rest).length, r.length] (r :: rest).flatten = some (r :: rest)
    rw [hr]
    have hlen : (r :: rest).flatten.length = (r :: rest).length * m :=
      join_length_of_rect (r :: rest) m h
    simp only [reshapeNd, hlen, if_pos rfl]
    rw [chunkRows_join (r :: rest) m h]
    simp

theorem indarray_roundtrip_witness :
    (Service.indarray [[(1 : Int), 2], [3, 4]]).ordering = "c"
    ∧ reconstructOutput (Service.indarray [[(1 : Int), 2], [3, 4]])
        = some [[(1 : Int), 2], [3, 4]] :=
  indarray_roundtrip [[(1 : Int), 2], [3, 4]] 2 (by decide)

/-- Result of `Service.predict`: a single array for a one-output
response, a list of arrays otherwise. -/
inductive PredictResult where
  | single (a : List (List Int))
  | multi (l : List (List (List Int)))
  deriving DecidableEq

/-- Embedding of the response handling of `Service.predict`
(services.py lines 113-117): reconstruct every output descriptor, then
return the lone array when there is exactly one output and the whole
list otherwise. `none` models a reshape exception. -/
def Service.predictOutputs (outs : List INDArray) : Option PredictResult := do
  let arrs ← outs.mapM reconstructOutput
  match arrs with
  | [a] => pure (PredictResult.single a)
  | _ => pure (PredictResult.multi arrs)

/-- Embedding of the response handling of `Service.predict_single`
(services.py lines 144-145): take `outputs[0]` and reshape only it.
`none` models the IndexError on an empty outputs list or a reshape
exception. -/
def Service.predictSingleOutput (outs : List INDArray) : Option PredictResult :=
  match outs with
  | [] => none
  | o :: _ => (reconstructOutput o).map PredictResult.single

/-- C2 (code_bug evaluation): on a response with two output descriptors,
`Service.predict` returns the ordered list of both arrays, but
`Service.predict_single` returns a single array holding only the first
output, contradicting its own docstring, which promises a list of arrays
for a multi-output model. -/
theorem predictSingle_drops_extra_outputs :
    Service.predictOutputs
        [⟨"c", [1, 1], [0]⟩, ⟨"c", [1, 1], [7]⟩]
      = some (PredictResult.multi [[[0]], [[7]]])
    ∧ Service.predictSingleOutput
        [⟨"c", [1, 1], [0]⟩, ⟨"c", [1, 1], [7]⟩]
      = some (PredictResult.single [[0]]) := by
  constructor <;> rfl

/-- A service seen through its two prediction entry points, with data of
one dynamic type `α` and a version string, as `Pipeline` uses its
deployed stages (services.py lines 407-431). -/
structure ServiceFn (α : Type) where
  predict : α → String → α
  predictSingle : α → String → α

/-- The two stages a `Pipeline` holds after construction: an optional
transform service and a model service. -/
structure PipelineStages (α : Type) where
  transform_service : Option (ServiceFn α)
  model_service : ServiceFn α

/-- Embedding of `Pipeline.predict` (services.py lines 407-418): when a
transform service is present the data is first replaced by its
prediction, then the model service predicts. -/
def PipelineStages.predict (p : PipelineStages α) (data : α) (version : String) : α :=
  let d := match p.transform_service with
    | some t => t.predict data version
    | none => data
  p.model_service.predict d version

/-- Embedding of `Pipeline.predict_single` (services.py lines 420-431):
same routing through the transform stage first, then the model stage. -/
def PipelineStages.predictSingle (p : PipelineStages α) (data : α) (version : String) : α :=
  let d := match p.transform_service with
    | some t => t.predictSingle data version
    | none => data
  p.model_service.predictSingle d version

/-- C3: for a Pipeline whose transform service is present,
`predict data version` equals the model service applied to the transform
service's prediction, and `predict_single` routes through the transform
stage first and then the model stage in the same way. -/
theorem pipeline_predict_chains (α : Type) (p : PipelineStages α)
    (t : ServiceFn α) (data : α) (version : String)
    (h : p.transform_service = some t) :
    p.predict data version = p.model_service.predict (t.predict data version) version
    ∧ p.predictSingle data version
      = p.model_service.predictSingle (t.predictSingle data version) version := by
  constructor <;> simp [PipelineStages.predict, PipelineStages.predictSingle, h]

/-- A concrete transform stage used to witness the chaining theorem. -/
def transformEx : ServiceFn Nat :=
  ⟨fun d _ => d + 1, fun d _ => d + 2⟩

/-- A concrete model stage used to witness the chaining theorem. -/
def modelEx : ServiceFn Nat :=
  ⟨fun d _ => d * 10, fun d _ => d * 100⟩

/-- A concrete pipeline used to witness the chaining theorem. -/
def pipelineEx : PipelineStages Nat :=
  ⟨some transformEx, modelEx⟩

theorem pipeline_predict_chains_witness :
    pipelineEx.transform_service = some transformEx
    ∧ pipelineEx.predict 4 "default"
      = pipelineEx.model_service.predict (transformEx.predict 4 "default") "default"
    ∧ pipelineEx.predictSingle 4 "default"
      = pipelineEx.model_service.predictSingle (transformEx.predictSingle 4 "default") "default" :=
  ⟨rfl, (pipeline_predict_chains Nat pipelineEx transformEx 4 "default" rfl).1,
    (pipeline_predict_chains Nat pipelineEx transformEx 4 "default" rfl).2⟩

/-- One observable effect of the lifecycle methods: a printed message, a
`model_state_change` API request, or a sleep of a number of seconds. -/
inductive Event where
  | printMsg (s : String)
  | stateChange (depId mdId : Nat) (st : String)
  | sleep (secs : Nat)
  deriving DecidableEq

/-- The `model_state_change` requests contained in a trace. -/
def stateRequests (t : List Event) : List Event :=
  t.filter fun e =>
    match e with
    | Event.stateChange _ _ _ => true
    | _ => false

/-- Embedding of the `while True` poll loop of `Service.start`
(services.py lines 47-60). `oracle k` is the state string the server
reports on the k-th poll. Each iteration sleeps 5 seconds, issues a
`start` state-change request and checks the reported state; on
`started` it sleeps a further 15 seconds, prints success and breaks,
otherwise it prints a wait notice and loops. The `fuel` argument bounds
the iterations of the embedded loop: `none` means the bound was reached
with the loop still running. -/
def startLoop (oracle : Nat → String) (depId mdId : Nat) :
    Nat → Nat → Option (List Event)
  | 0, _ => none
  | fuel + 1, k =>
    if oracle k = "started" then
      some [Event.sleep 5, Event.stateChange depId mdId "start",
        Event.sleep 15, Event.printMsg ">>> Model server started successfully!"]
    else
      (startLoop oracle depId mdId fuel (k + 1)).map fun t =>
        Event.sleep 5 :: Event.stateChange depId mdId "start" ::
          Event.printMsg ">>> Waiting for deployment..." :: t

/-- Embedding of `Service.start` (services.py lines 33-60). With no
model deployment it prints a diagnostic and returns; otherwise it issues
a `start` state-change request, prints a notice and runs the poll loop.
The result is the trace of effects; `none` means the fuel bound was
reached while the loop was still polling. -/
def Service.start (depId : Nat) (md : Option Nat) (oracle : Nat → String)
    (fuel : Nat) : Option (List Event) :=
  match md with
  | none => some [Event.printMsg "No model deployed yet, call deploy() on a model first."]
  | some mdId =>
    (startLoop oracle depId mdId fuel 0).map fun t =>
      Event.stateChange depId mdId "start" ::
        Event.printMsg ">>> Starting to serve model..." :: t

/-- The loop trace produced when the first `k` polls report a
non-started state and poll `k` reports `started`: `k` wait iterations
followed by the successful iteration with its 15-second settle sleep. -/
def waitTrace (depId mdId : Nat) : Nat → List Event
  | 0 => [Event.sleep 5, Event.stateChange depId mdId "start",
      Event.sleep 15, Event.printMsg ">>> Model server started successfully!"]
  | k + 1 => Event.sleep 5 :: Event.stateChange depId mdId "start" ::
      Event.printMsg ">>> Waiting for deployment..." :: waitTrace depId mdId k

/-- C5: with no model deployment, `Service.start` returns normally with
a single diagnostic print: it raises nothing, issues no state-change
request, and changes nothing else. -/
theorem start_no_deployment_noop (depId : Nat) (oracle : Nat → String) (fuel : Nat) :
    Service.start depId none oracle fuel
      = some [Event.printMsg "No model deployed yet, call deploy() on a model first."]
    ∧ stateRequests [Event.printMsg "No model deployed yet, call deploy() on a model first."]
      = [] :=
  ⟨rfl, rfl⟩

theorem startLoop_diverges (oracle : Nat → String) (depId mdId : Nat)
    (h : ∀ j, oracle j ≠ "started") :
    ∀ fuel k, startLoop oracle depId mdId fuel k = none := by
  intro fuel
  induction fuel with
  | zero => intro k; rfl
  | succ f ih =>
    intro k
    simp only [startLoop, if_neg (h k), ih (k + 1), Option.map_none']

theorem startLoop_reaches_started (oracle : Nat → String) (depId mdId : Nat) :
    ∀ k j fuel, (∀ i, i < k → oracle (j + i) ≠ "started") →
      oracle (j + k) = "started" → k < fuel →
      startLoop oracle depId mdId fuel j = some (waitTrace depId mdId k) := by
  intro k
  induction k with
  | zero =>
    intro j fuel _ hk hfuel
    match fuel, hfuel with
    | f + 1, _ =>
      simp only [startLoop, Nat.add_zero] at hk ⊢
      rw [if_pos hk]
      rfl
  | succ n ih =>
    intro j fuel hlt hk hfuel
    match fuel, hfuel with
    | f + 1, hfuel =>
      have hj : oracle j ≠ "started" := by
        have := hlt 0 (Nat.succ_pos n)
        simpa using this
      have hlt2 : ∀ i, i < n → oracle (j + 1 + i) ≠ "started" := by
        intro i hi
        have := hlt (i + 1) (Nat.succ_lt_succ hi)
        rw [Nat.add_comm i 1, ← Nat.add_assoc] at this
        exact this
      have hk2 : oracle (j + 1 + n) = "started" := by
        have he : j + 1 + n = j + (n + 1) := by omega
        rw [he]
        exact hk
      have hf2 : n < f := Nat.lt_of_succ_lt_succ hfuel
      simp only [startLoop, if_neg hj, ih (j + 1) f hlt2 hk2 hf2, Option.map_some']
      rfl

/-- C6: with a deployment present, `Service.start` issues a `start`
state-change request, then loops sleeping 5 seconds before each server
state check; if the server never reports `started` the call never
terminates (every fuel bound is exhausted), and if poll `k` is the first
to report `started` the call returns, its trace ending with the
15-second settle sleep after the successful check. -/
theorem start_polls_until_started :
    (∀ depId mdId oracle fuel, (∀ j, oracle j ≠ "started") →
      Service.start depId (some mdId) oracle fuel = none)
    ∧ (∀ depId mdId oracle k fuel, (∀ i, i < k → oracle i ≠ "started") →
        oracle k = "started" → k < fuel →
        Service.start depId (some mdId) oracle fuel
          = some (Event.stateChange depId mdId "start" ::
              Event.printMsg ">>> Starting to serve model..." ::
              waitTrace depId mdId k)) := by
  constructor
  · intro depId mdId oracle fuel h
    simp only [Service.start, startLoop_diverges oracle depId mdId h fuel 0,
      Option.map_none']
  · intro depId mdId oracle k fuel hlt hk hfuel
    have h0 : ∀ i, i < k → oracle (0 + i) ≠ "started" := by
      intro i hi; simpa using hlt i hi
    have hk0 : oracle (0 + k) = "started" := by simpa using hk
    simp only [Service.start,
      startLoop_reaches_started oracle depId mdId k 0 fuel h0 hk0 hfuel,
      Option.map_some']

/-- A poll oracle that never reports `started`. -/
def oracleNever : Nat → String := fun _ => "starting"

/-- A poll oracle whose polls report `started` from the second poll on. -/
def oracleSecond : Nat → String := fun k => if k = 0 then "starting" else "started"

theorem start_polls_until_started_witness :
    Service.start 1 (some 2) oracleNever 3 = none
    ∧ Service.start 1 (some 2) oracleSecond 3
      = some (Event.stateChange 1 2 "start" ::
          Event.printMsg ">>> Starting to serve model..." :: waitTrace 1 2 1) :=
  ⟨start_polls_until_started.1 1 2 oracleNever 3 (fun j => by
      show "starting" ≠ "started"
      decide),
    start_polls_until_started.2 1 2 oracleSecond 1 3
      (fun i hi => by
        have : i = 0 := Nat.lt_one_iff.mp hi
        rw [this]; decide)
      (by decide) (by decide)⟩

/-- Embedding of `Service.stop` (services.py lines 62-70): it issues a
single `stop` state-change request, reading `model_deployment.id`
unconditionally; with no model deployment the attribute access raises,
modelled as an error. The returned trace is not inspected: no state is
read back. -/
def Service.stop (depId : Nat) (md : Option Nat) : Except String (List Event) :=
  match md with
  | some mdId => Except.ok [Event.stateChange depId mdId "stop"]
  | none => Except.error "AttributeError: NoneType object has no attribute id"

/-- C7: with a deployment present, `Service.stop` returns normally and
its trace is exactly one `stop` state-change request: nothing is read
back or verified afterwards. -/
theorem stop_single_request (depId mdId : Nat) :
    Service.stop depId (some mdId) = Except.ok [Event.stateChange depId mdId "stop"] :=
  rfl

/-- C8: with no model deployment, `Service.stop` raises (the unguarded
`model_deployment.id` access), so stopping an undeployed service is an
error, not a silent no-op like `start`. -/
theorem stop_no_deployment_raises (depId : Nat) :
    Service.stop depId none
      = Except.error "AttributeError: NoneType object has no attribute id" :=
  rfl

/-- The local filesystem as the list of existing paths. Writing a file
(`cv2.imwrite`) makes its path exist. -/
def fsWrite (p : String) (fs : List String) : List String :=
  if p ∈ fs then fs else p :: fs

/-- Removing a file (`os.remove`) makes its path no longer exist. -/
def fsRemove (p : String) (fs : List String) : List String :=
  fs.filter fun q => q ≠ p

/-- Embedding of `Service.detect_objects` (services.py lines 147-201)
restricted to its filesystem effects. It writes the image to
`temp_path`, posts the multipart upload (`postOk` says whether the
request raises), and only then — on the normal path — removes
`temp_path` after an existence check. When the post raises, the
exception propagates immediately and the removal never runs; when cv2
is absent an exception is raised before anything is written. The result
pairs the outcome with the final filesystem. -/
def Service.detectObjects (cv2Present : Bool) (fs : List String)
    (tempPath : String) (postOk : Bool) : Except String Unit × List String :=
  if cv2Present = false then
    (Except.error "OpenCV is not installed.", fs)
  else
    let fs1 := fsWrite tempPath fs
    if postOk then
      let fs2 := if tempPath ∈ fs1 then fsRemove tempPath fs1 else fs1
      (Except.ok (), fs2)
    else
      (Except.error "requests exception propagates", fs1)

/-- C4 (counterexample): a `detect_objects` call whose upload request
raises leaves the temporary file on disk, refuting the claim that after
any call the file at `temp_path` does not exist. -/
theorem detectObjects_leaves_file_on_error :
    "temp.jpg" ∈ (Service.detectObjects true [] "temp.jpg" false).2 := by
  decide

/-- C4 (amended): after any `detect_objects` call that returns normally
the file at `temp_path` does not exist; when the upload request raises,
the exception propagates and the file remains on disk. -/
theorem detectObjects_cleanup_on_normal_return (cv2Present : Bool)
    (fs : List String) (tempPath : String) (postOk : Bool) :
    ((Service.detectObjects cv2Present fs tempPath postOk).1 = Except.ok () →
      tempPath ∉ (Service.detectObjects cv2Present fs tempPath postOk).2)
    ∧ (cv2Present = true → postOk = false →
      tempPath ∈ (Service.detectObjects cv2Present fs tempPath postOk).2) := by
  constructor
  · intro hok
    cases cv2Present with
    | false => simp [Service.detectObjects] at hok
    | true =>
      cases postOk with
      | false => simp [Service.detectObjects] at hok
      | true =>
        have hmem : tempPath ∈ fsWrite tempPath fs := by
          unfold fsWrite
          by_cases hp : tempPath ∈ fs
          · rw [if_pos hp]; exact hp
          · rw [if_neg hp]; exact List.mem_cons_self tempPath fs
        simp only [Service.detectObjects, Bool.true_eq_false, if_neg, if_pos hmem,
          Bool.false_eq_true, reduceIte]
        unfold fsRemove
        intro hcontra
        have := (List.mem_filter.mp hcontra).2
        simp at this
  · intro hcv hpost
    rw [hcv, hpost]
    simp only [Service.detectObjects, Bool.true_eq_false, reduceIte]
    unfold fsWrite
    by_cases hp : tempPath ∈ fs
    · rw [if_pos hp]; exact hp
    · rw [if_neg hp]; exact List.mem_cons_self tempPath fs

theorem detectObjects_cleanup_witness :
    ((Service.detectObjects true [] "t.jpg" true).1 = Except.ok ()
      ∧ "t.jpg" ∉ (Service.detectObjects true [] "t.jpg" true).2)
    ∧ "t.jpg" ∈ (Service.detectObjects true [] "t.jpg" false).2 :=
  ⟨⟨rfl, (detectObjects_cleanup_on_normal_return true [] "t.jpg" true).1 rfl⟩,
    (detectObjects_cleanup_on_normal_return true [] "t.jpg" false).2 rfl rfl⟩

/-- Handle to a `Skil` server instance. -/
structure SkilHandle where
  hid : Nat
  deriving DecidableEq

/-- The data of a `skil.Model` that the `Pipeline` constructor touches:
its owning `Skil` handle and its name. -/
structure ModelData where
  skil : SkilHandle
  name : String
  deriving DecidableEq

/-- The data of a `skil.Deployment` the constructor passes along. -/
structure DeploymentData where
  did : Nat
  deriving DecidableEq

/-- The data of a `skil.Transform` passed to the `Pipeline` constructor. -/
structure TransformData where
  name : String
  deriving DecidableEq

/-- A Python value that can occupy one of `Service.__init__`'s
positional parameters in the `Pipeline` constructor's super call:
the pipeline object itself, a `Skil` handle, a model, a deployment, or
`None`. -/
inductive SlotVal where
  | selfRef
  | skilVal (s : SkilHandle)
  | modelVal (m : ModelData)
  | deploymentVal (d : DeploymentData)
  | noneVal
  deriving DecidableEq

/-- Python attribute access `v.name`: only a model carries a name here;
on any other value the access is modelled as `none` rather than an
exception, since `Skil`'s attributes live outside this repository. -/
def slotName (v : SlotVal) : Option String :=
  match v with
  | SlotVal.modelVal m => some m.name
  | _ => none

/-- The instance fields `Service.__init__` assigns, in assignment order
(services.py lines 26-31). -/
structure ServiceFields where
  skil : SlotVal
  model : SlotVal
  model_name : Option String
  model_deployment : SlotVal
  deployment : SlotVal
  deriving DecidableEq

/-- Embedding of `Service.__init__` (services.py lines 26-31): the four
positional parameters are stored as the corresponding fields, and
`model_name` is read off the `model` argument. -/
def Service.init (skil model deployment model_deployment : SlotVal) : ServiceFields :=
  ⟨skil, model, slotName model, model_deployment, deployment⟩

/-- Embedding of `Pipeline.__init__` (services.py lines 384-395). The
super call passes `(self, model.skil, deployment, None)` into
`Service.__init__`'s `(skil, model, deployment, model_deployment)`
slots. Afterwards `model.deploy(...)` and `transform.deploy(...)` are
called; the deploy bodies live outside services.py and are abstracted
as succeeding, but calling `deploy` on a `None` transform raises, so a
`None` transform makes construction fail after the fields are set. -/
def Pipeline.init (deployment : DeploymentData) (model : ModelData)
    (transform : Option TransformData) : Except String ServiceFields :=
  let fields := Service.init SlotVal.selfRef (SlotVal.skilVal model.skil)
    (SlotVal.deploymentVal deployment) SlotVal.noneVal
  match transform with
  | none => Except.error "AttributeError: NoneType object has no attribute deploy"
  | some _ => Except.ok fields

/-- C9: constructing a Pipeline with the default `transform = None`
fails (the constructor unconditionally calls `transform.deploy`), and
whenever construction does succeed the super call has shifted the
arguments by one: the pipeline itself lands in the `skil` field,
`model.skil` in the `model` field, the deployment in the `deployment`
field and `None` in `model_deployment`. -/
theorem pipeline_init_shifted_args (deployment : DeploymentData) (model : ModelData) :
    Pipeline.init deployment model none
      = Except.error "AttributeError: NoneType object has no attribute deploy"
    ∧ ∀ t fields, Pipeline.init deployment model (some t) = Except.ok fields →
        fields.skil = SlotVal.selfRef
        ∧ fields.model = SlotVal.skilVal model.skil
        ∧ fields.deployment = SlotVal.deploymentVal deployment
        ∧ fields.model_deployment = SlotVal.noneVal := by
  refine ⟨rfl, ?_⟩
  intro t fields hok
  have hf : fields = Service.init SlotVal.selfRef (SlotVal.skilVal model.skil)
      (SlotVal.deploymentVal deployment) SlotVal.noneVal := by
    have := hok
    simp only [Pipeline.init] at this
    exact (Except.ok.injEq _ _).mp this.symm
  rw [hf]
  exact ⟨rfl, rfl, rfl, rfl⟩

theorem pipeline_init_shifted_args_witness :
    Pipeline.init ⟨7⟩ ⟨⟨3⟩, "m"⟩ none
      = Except.error "AttributeError: NoneType object has no attribute deploy"
    ∧ ((Service.init SlotVal.selfRef (SlotVal.skilVal ⟨3⟩)
          (SlotVal.deploymentVal ⟨7⟩) SlotVal.noneVal).skil = SlotVal.selfRef
      ∧ (Service.init SlotVal.selfRef (SlotVal.skilVal ⟨3⟩)
          (SlotVal.deploymentVal ⟨7⟩) SlotVal.noneVal).model = SlotVal.skilVal ⟨3⟩
      ∧ (Service.init SlotVal.selfRef (SlotVal.skilVal ⟨3⟩)
          (SlotVal.deploymentVal ⟨7⟩) SlotVal.noneVal).deployment = SlotVal.deploymentVal ⟨7⟩
      ∧ (Service.init SlotVal.selfRef (SlotVal.skilVal ⟨3⟩)
          (SlotVal.deploymentVal ⟨7⟩) SlotVal.noneVal).model_deployment = SlotVal.noneVal) :=
  ⟨(pipeline_init_shifted_args ⟨7⟩ ⟨⟨3⟩, "m"⟩).1,
    (pipeline_init_shifted_args ⟨7⟩ ⟨⟨3⟩, "m"⟩).2 ⟨"t"⟩ _ rfl⟩

/-- A remote API call made by `Resource.delete`. -/
inductive ApiCall where
  | deleteResourceById (rid : Nat)
  deriving DecidableEq

/-- The state of a `Resource` (resources/common.py lines 9-13): its
`resource_id`, which the constructor sets to `None`. -/
structure Resource where
  resource_id : Option Nat
  deriving DecidableEq

/-- Embedding of `Resource.delete` (resources/common.py lines 15-19):
`if self.resource_id:` is Python truthiness, so `None` (and a zero id)
issue no call; otherwise one `delete_resource_by_id` call is made. The
result pairs the issued calls with the unchanged resource state. -/
def Resource.delete (r : Resource) : List ApiCall × Resource :=
  match r.resource_id with
  | some rid =>
    if rid = 0 then ([], r) else ([ApiCall.deleteResourceById rid], r)
  | none => ([], r)

/-- C10: for a Resource whose `resource_id` is `None` (as the
constructor leaves it), `delete` issues no remote API call and returns
the resource state unchanged. -/
theorem resource_delete_none_noop (r : Resource) (h : r.resource_id = none) :
    Resource.delete r = ([], r) := by
  unfold Resource.delete
  rw [h]

theorem resource_delete_none_noop_witness :
    (Resource.mk none).resource_id = none
    ∧ Resource.delete (Resource.mk none) = ([], Resource.mk none) :=
  ⟨rfl, resource_delete_none_noop (Resource.mk none) rfl⟩
